import Mathlib

/-!
Verification of the totem-backend photo-compositing service (`src/main.py`)
against its natural-language specification.

Shallow embedding conventions:
* A PIL `Image` is modelled as a `Bitmap`: width, height, a pixel mode
  (`RGB` / `RGBA`) and a pixel function.  Pixel values are records of four
  natural channel components; in `RGB` mode the alpha component is
  canonically 255 and is never consulted.
* Python float arithmetic appears in two models.  `prepScale` /
  `prepareDims` idealize it as exact rationals (`ℚ`); `fl53nd` /
  `prepareDimsF` model IEEE-754 binary64 faithfully (round-to-nearest,
  ties-to-even, 53-bit significand — overflow and subnormals cannot
  arise at image dimensions), representing each float as a dyadic pair
  `k · 2 ^ g` and rounding after each division and multiplication
  exactly as the interpreter does.  The two models disagree on the
  resized longer side at feasible inputs (50176×100 gives 1023 under
  binary64, 1024 under exact rationals).  `int(x)` on a non-negative
  value is `Int.floor` followed by `Int.toNat`.
* `Image.resize(..., LANCZOS)` is modelled only up to its dimensions (the
  claims never touch resampled pixel content); its pixel function is a
  plain box sampler standing in for the Lanczos kernel.
* `Image.paste` without a mask overwrites the destination rectangle;
  `Image.paste(src, box, mask)` with an RGBA mask blends each channel with
  Pillow's `BLEND` macro, `MULDIV255(d, 255-a) + MULDIV255(s, a)` where
  `MULDIV255(v, m) = ((t >>> 8) + t) >>> 8` with `t = v*m + 128`.
* The request handler `compose` is a pure function of a `ComposeEnv`
  describing everything the outside world decides during one request
  (decode results, filesystem state, the Gemini response, save outcomes,
  the request's base URL, the fresh uuid).  Its `ComposeOutcome` carries
  the HTTP-level result together with an effect trace: the list of files
  written, whether the external generative call was made, and the artifact
  bitmap that was persisted (if any).
* `BASE_DIR` is abstracted away: file paths are kept relative to it
  (`assets/...`, `static/...`).
-/

/-- One pixel: four channel components (red, green, blue, alpha). -/
structure Px where
  r : Nat
  g : Nat
  b : Nat
  a : Nat
deriving DecidableEq

/-- Pixel mode of a PIL image: opaque 3-channel or 4-channel with alpha. -/
inductive PMode where
  | rgb
  | rgba
deriving DecidableEq

/-- An in-memory decoded raster image (PIL `Image`). -/
structure Bitmap where
  width : Nat
  height : Nat
  mode : PMode
  pix : Nat → Nat → Px

/-- Pillow's `MULDIV255` macro: approximate `(v * m) / 255` on bytes. -/
def muldiv255 (v m : Nat) : Nat :=
  let t := v * m + 128
  ((t >>> 8) + t) >>> 8

/-- Pillow's `BLEND` macro on one channel: destination `d`, source `s`,
mask value `a`. -/
def blendCh (d s a : Nat) : Nat :=
  muldiv255 d (255 - a) + muldiv255 s a

/-- Blend a whole pixel using the source's alpha as the mask (Pillow's
`paste` with an RGBA mask blends all four bands). -/
def blendPx (d s : Px) : Px :=
  ⟨blendCh d.r s.r s.a, blendCh d.g s.g s.a, blendCh d.b s.b s.a,
   blendCh d.a s.a s.a⟩

/-- `img.convert("RGBA")`: an RGB image gains an opaque alpha band, an RGBA
image is returned unchanged. -/
def convertRGBA (b : Bitmap) : Bitmap :=
  match b.mode with
  | .rgb => { b with mode := .rgba, pix := fun x y => { b.pix x y with a := 255 } }
  | .rgba => b

/-- `img.convert("RGB")`: the alpha band is dropped (the canonical opaque
alpha 255 is recorded), the colour channels are untouched. -/
def convertRGB (b : Bitmap) : Bitmap :=
  match b.mode with
  | .rgb => b
  | .rgba => { b with mode := .rgb, pix := fun x y => { b.pix x y with a := 255 } }

/-- `Image.new("RGBA", (w, h), (0, 0, 0, 0))`: a fully transparent canvas. -/
def newRGBA (w h : Nat) : Bitmap :=
  { width := w, height := h, mode := .rgba, pix := fun _ _ => ⟨0, 0, 0, 0⟩ }

/-- `dest.paste(src, (ox, oy))` without a mask: the destination rectangle is
overwritten by the source (clipping happens implicitly because pixels are
only ever consulted inside the destination bounds). -/
def pasteAt (dest src : Bitmap) (ox oy : Nat) : Bitmap :=
  { dest with pix := fun x y =>
      if ox ≤ x ∧ x < ox + src.width ∧ oy ≤ y ∧ y < oy + src.height then
        src.pix (x - ox) (y - oy)
      else dest.pix x y }

/-- `dest.paste(src, (ox, oy), src)` with the source itself as the mask:
inside the source rectangle every band is blended with the source's alpha
as mask value; outside it the destination is untouched. -/
def pasteMask (dest src : Bitmap) (ox oy : Nat) : Bitmap :=
  { dest with pix := fun x y =>
      if ox ≤ x ∧ x < ox + src.width ∧ oy ≤ y ∧ y < oy + src.height then
        blendPx (dest.pix x y) (src.pix (x - ox) (y - oy))
      else dest.pix x y }

/-- `img.resize((nw, nh), LANCZOS)`: dimensions become `(nw, nh)`.  The
Lanczos kernel is not modelled; a box sampler stands in for the pixel
content, which no claim depends on. -/
def resize (b : Bitmap) (nw nh : Nat) : Bitmap :=
  { width := nw, height := nh, mode := b.mode,
    pix := fun x y => b.pix (x * b.width / nw) (y * b.height / nh) }

/-- `max_dim = 1024` (line 180 of `main.py`). -/
def maxDim : Nat := 1024

/-- `scale = min(max_dim / float(w), max_dim / float(h), 1.0)` (line 182),
with Python floats modelled as exact rationals. -/
def prepScale (w h : Nat) : ℚ :=
  min (min ((maxDim : ℚ) / (w : ℚ)) ((maxDim : ℚ) / (h : ℚ))) 1

/-- `new_size = (int(w * scale), int(h * scale))` guarded by
`if scale < 1.0` (lines 183–184). -/
def prepareDims (w h : Nat) : Nat × Nat :=
  if prepScale w h < 1 then
    ((⌊(w : ℚ) * prepScale w h⌋).toNat, (⌊(h : ℚ) * prepScale w h⌋).toNat)
  else (w, h)

/-- Subject preparer (lines 180–185): downscale the person image so that
neither side exceeds `max_dim`, never upscale. -/
def prepareSubject (b : Bitmap) : Bitmap :=
  if prepScale b.width b.height < 1 then
    resize b (prepareDims b.width b.height).1 (prepareDims b.width b.height).2
  else b

/-- `⌊log₂ n⌋`, computed with explicit fuel so that the recursion is
structural and the kernel can evaluate it; correct for `2 ≤ n < 2 ^ fuel`
and 0 on smaller inputs. -/
def log2fuel : Nat → Nat → Nat
  | 0, _ => 0
  | fuel + 1, n => if 2 ≤ n then log2fuel fuel (n / 2) + 1 else 0

/-- Decide `n / d < 2 ^ e` for a positive rational `n / d` using only
natural-number arithmetic. -/
def ratLtPow2 (n d : Nat) (e : ℤ) : Bool :=
  if 0 ≤ e then n < 2 ^ e.toNat * d else n * 2 ^ (-e).toNat < d

/-- Round the positive rational `n / d` to the nearest IEEE-754 binary64
value (round-to-nearest, ties-to-even, 53-bit significand), returned as a
dyadic pair `(k, g)` standing for `k · 2 ^ g` with `2^52 ≤ k ≤ 2^53`.
Only the normal range matters at image dimensions, so overflow and
subnormals are not treated. -/
def fl53nd (n d : Nat) : Nat × ℤ :=
  let e0 : ℤ := (log2fuel 256 n : ℤ) - (log2fuel 256 d : ℤ)
  let e : ℤ := if ratLtPow2 n d e0 then e0 - 1 else e0
  let g : ℤ := e - 52
  let N := if 0 ≤ g then n else n * 2 ^ (-g).toNat
  let D := if 0 ≤ g then d * 2 ^ g.toNat else d
  let k0 := N / D
  let r := N % D
  let k := if 2 * r < D then k0
    else if D < 2 * r then k0 + 1
    else if k0 % 2 = 0 then k0 else k0 + 1
  (k, g)

/-- `k₁ · 2^g₁ < k₂ · 2^g₂`, decided after shifting to the smaller
exponent. -/
def dyLt (a b : Nat × ℤ) : Bool :=
  if a.2 ≤ b.2 then a.1 < b.1 * 2 ^ (b.2 - a.2).toNat
  else a.1 * 2 ^ (a.2 - b.2).toNat < b.1

/-- `min` of two binary64 values (exact, as in Python's `min`). -/
def dyMin (a b : Nat × ℤ) : Nat × ℤ :=
  if dyLt b a then b else a

/-- `int(...)` truncation of a non-negative dyadic value. -/
def dyFloor (a : Nat × ℤ) : Nat :=
  if 0 ≤ a.2 then a.1 * 2 ^ a.2.toNat else a.1 / 2 ^ (-a.2).toNat

/-- Round the non-negative dyadic value `m · 2 ^ g` (an exact float
product before rounding) back to binary64. -/
def flOfDy (m : Nat) (g : ℤ) : Nat × ℤ :=
  if 0 ≤ g then fl53nd (m * 2 ^ g.toNat) 1 else fl53nd m (2 ^ (-g).toNat)

/-- The binary64 value `1.0`. -/
def dyOne : Nat × ℤ := (2 ^ 52, -52)

/-- Lines 180–185 under faithful binary64 semantics: each division
`max_dim / float(w)` is rounded (its operands are exactly representable),
the three-way `min` and the comparison with `1.0` are exact, each float
product `w * scale` is rounded, and `int(...)` truncates. -/
def prepareDimsF (w h : Nat) : Nat × Nat :=
  let s := dyMin (dyMin (fl53nd maxDim w) (fl53nd maxDim h)) dyOne
  if dyLt s dyOne then
    (dyFloor (flOfDy (w * s.1) s.2), dyFloor (flOfDy (h * s.1) s.2))
  else (w, h)

/-- One `part` of a Gemini candidate's content, as inspected by
`gerar_imagem_gemini` (lines 128–143): either `inline_data` is absent, or
its `data` is empty/absent, or it holds bytes whose decode attempt either
fails with a message or yields a bitmap. -/
inductive PartData where
  | noInline
  | emptyData
  | withData (decode : Except String Bitmap)

/-- One Gemini response candidate: an optional `content` holding parts. -/
structure Candidate where
  content : Option (List PartData)

/-- The outside world's behaviour of one `client.models.generate_content`
call: either the call raises, or it returns a list of candidates. -/
inductive GeminiCall where
  | raises (e : String)
  | returns (candidates : List Candidate)

/-- Scan the parts of one candidate for the first part with non-empty
`inline_data.data` (lines 128–143); the decode outcome of that part
decides the result. -/
def findInParts : List PartData → Option (Except String Bitmap)
  | [] => none
  | .noInline :: rest => findInParts rest
  | .emptyData :: rest => findInParts rest
  | .withData d :: _rest =>
    match d with
    | .error e => some (.error ("Erro ao abrir imagem retornada pela Gemini: " ++ e))
    | .ok img => some (.ok img)

/-- Scan the candidates (line 123), skipping candidates with no content. -/
def findInCands : List Candidate → Option (Except String Bitmap)
  | [] => none
  | c :: rest =>
    match c.content with
    | none => findInCands rest
    | some parts =>
      match findInParts parts with
      | some r => some r
      | none => findInCands rest

/-- `gerar_imagem_gemini` (lines 95–146): the contents list
`[PROMPT, person_img, bg_img]` is sent to the external collaborator, whose
behaviour is the `GeminiCall` value; the function either raises (modelled
as `.error`) or returns the first decodable inline image. -/
def gerarImagemGemini (call : GeminiCall) : Except String Bitmap :=
  match call with
  | .raises e => .error ("Erro ao chamar Gemini API: " ++ e)
  | .returns cands =>
    match findInCands cands with
    | some r => r
    | none => .error "Resposta da Gemini não contém nenhuma imagem gerada."

/-- `str.rstrip("/")`: drop every trailing slash. -/
def rstripSlash (s : String) : String :=
  String.mk ((s.toList.reverse.dropWhile (fun c => c = '/')).reverse)

/-- `SCENE_FILE`, relative to the abstracted `BASE_DIR` (line 26). -/
def sceneFilePath : String := "assets/ship_day_4k.jpg"

/-- Frame compositing (lines 238–247): transparent canvas of the frame's
size, paste the generated image at the given offset without a mask, paste
the frame at (0,0) with the frame's own alpha as mask, flatten to RGB. -/
def frameComposite (g frame : Bitmap) (off : Nat × Nat) : Bitmap :=
  convertRGB (pasteMask (pasteAt (newRGBA frame.width frame.height) g off.1 off.2) frame 0 0)

/-- Everything the outside world decides during one `/compose` request. -/
structure ComposeEnv where
  /-- Result of `Image.open(BytesIO(raw_bytes)).convert("RGB")` on the
  upload: `none` when the bytes do not decode as an image (line 170). -/
  decoded : Option Bitmap
  /-- `os.path.exists(SCENE_FILE)` (line 190). -/
  sceneExists : Bool
  /-- Result of `Image.open(SCENE_FILE).convert("RGB")` (line 197):
  the decoded scene, or the exception message. -/
  sceneDecoded : Except String Bitmap
  /-- Behaviour of the external Gemini call (lines 110–116). -/
  geminiCall : GeminiCall
  /-- `os.path.exists(FRAME_FILE)` (line 231). -/
  frameExists : Bool
  /-- Result of `Image.open(FRAME_FILE).convert("RGBA")` (line 232),
  assumed decodable when the file exists (a decode failure there folds
  into `saveJpegErr`, the surrounding `try` block's failure). -/
  frame : Bitmap
  /-- Exception message of `final_img.save(foto_path, ...)` (line 255) or
  of any earlier step of the same `try` block, `none` on success. -/
  saveJpegErr : Option String
  /-- Exception message of `qr_img.save(qr_path)` (line 279), `none` on
  success. -/
  qrSaveErr : Option String
  /-- `str(request.base_url)` (line 266). -/
  baseUrl : String
  /-- `str(uuid.uuid4())` (line 221). -/
  imgId : String

/-- The HTTP-level result of `/compose`: a success body carrying both URLs,
or an error response with a status code and a `detail` message. -/
inductive ComposeResult where
  | ok (final_url qr_url : String)
  | err (status : Nat) (detail : String)
deriving DecidableEq

/-- Result of one `/compose` request together with its effect trace. -/
structure ComposeOutcome where
  result : ComposeResult
  /-- Paths (relative to `BASE_DIR`) written during the request. -/
  filesWritten : List String
  /-- Whether the external generative call was made. -/
  geminiCalled : Bool
  /-- The artifact bitmap persisted as the JPEG, when one was saved. -/
  artifact : Option Bitmap

/-- The `/compose` handler (lines 162–298) as a pure function of the
request environment. -/
def compose (env : ComposeEnv) : ComposeOutcome :=
  match env.decoded with
  | none =>
    ⟨.err 400 "Arquivo enviado não é uma imagem válida.", [], false, none⟩
  | some personImg =>
    let _person := prepareSubject personImg
    if env.sceneExists then
      match env.sceneDecoded with
      | .error e => ⟨.err 500 ("Erro ao abrir cenário: " ++ e), [], false, none⟩
      | .ok bg0 =>
        let _bg := resize bg0 1024 1024
        match gerarImagemGemini env.geminiCall with
        | .error e => ⟨.err 500 e, [], true, none⟩
        | .ok finalImg0 =>
          let fotoFilename := env.imgId ++ ".jpg"
          let fotoPath := "static/fotos/" ++ fotoFilename
          let finalImg1 := convertRGBA finalImg0
          let artifact :=
            if env.frameExists then frameComposite finalImg1 env.frame (25, 270)
            else convertRGB finalImg1
          match env.saveJpegErr with
          | some e => ⟨.err 500 ("Erro ao salvar imagem final: " ++ e), [], true, none⟩
          | none =>
            let base := rstripSlash env.baseUrl
            let fotoUrl := base ++ "/static/fotos/" ++ fotoFilename
            let qrFilename := env.imgId ++ ".png"
            let qrPath := "static/qr/" ++ qrFilename
            match env.qrSaveErr with
            | some e =>
              ⟨.err 500 ("Erro ao salvar QR code: " ++ e), [fotoPath], true, some artifact⟩
            | none =>
              ⟨.ok fotoUrl (base ++ "/static/qr/" ++ qrFilename),
               [fotoPath, qrPath], true, some artifact⟩
    else
      ⟨.err 500 ("Cenário não encontrado em " ++ sceneFilePath), [], false, none⟩

/-! ## Concrete instances used by the witnesses -/

/-- A small decoded upload (person photo). -/
def bmpP : Bitmap := ⟨4, 4, .rgb, fun _ _ => ⟨10, 20, 30, 255⟩⟩

/-- A decoded scene asset. -/
def bmpScene : Bitmap := ⟨8, 8, .rgb, fun _ _ => ⟨1, 2, 3, 255⟩⟩

/-- A generative output bitmap (RGB, 100×50). -/
def bmpG : Bitmap := ⟨100, 50, .rgb, fun x y => ⟨x % 256, y % 256, 7, 255⟩⟩

/-- A frame asset (RGBA, 400×600): opaque on the left half, fully
transparent on the right half. -/
def bmpFrame : Bitmap :=
  ⟨400, 600, .rgba, fun x _ => if x < 200 then ⟨9, 8, 7, 255⟩ else ⟨0, 0, 0, 0⟩⟩

/-- A Gemini call that returns one candidate holding one decodable image. -/
def goodCall : GeminiCall := .returns [⟨some [.withData (.ok bmpG)]⟩]

/-- A fully successful request environment without a frame asset. -/
def envOkNoFrame : ComposeEnv :=
  ⟨some bmpP, true, .ok bmpScene, goodCall, false, bmpFrame, none, none,
   "http://host/", "id-1"⟩

/-- The same environment with the frame asset present. -/
def envOkFrame : ComposeEnv := { envOkNoFrame with frameExists := true }

/-- An environment whose upload bytes do not decode as an image. -/
def envBadUpload : ComposeEnv := { envOkNoFrame with decoded := none }

/-- An environment whose scene asset file is absent. -/
def envNoScene : ComposeEnv := { envOkNoFrame with sceneExists := false }

/-- An environment where the external Gemini call raises. -/
def envGeminiRaises : ComposeEnv :=
  { envOkNoFrame with geminiCall := .raises "quota" }

/-- An environment where saving the QR code fails. -/
def envQrFails : ComposeEnv := { envOkNoFrame with qrSaveErr := some "disk full" }

/-! ## Pixel-level lemmas about the Pillow primitives -/

/-- Colour channels of a pixel are in byte range. -/
abbrev rgbOk (p : Px) : Prop := p.r ≤ 255 ∧ p.g ≤ 255 ∧ p.b ≤ 255

/-- Two pixels agree on their colour channels (the alpha band is dropped
when flattening to RGB, so it does not count). -/
abbrev rgbEq (p q : Px) : Prop := p.r = q.r ∧ p.g = q.g ∧ p.b = q.b

lemma muldiv255_zero (v : Nat) : muldiv255 v 0 = 0 := by
  simp [muldiv255]

lemma muldiv255_full (v : Nat) (h : v ≤ 255) : muldiv255 v 255 = v := by
  simp only [muldiv255, Nat.shiftRight_eq_div_pow]
  have h2 : (2 : Nat) ^ 8 = 256 := by norm_num
  rw [h2]
  omega

lemma blendCh_opaque (d s : Nat) (hs : s ≤ 255) : blendCh d s 255 = s := by
  simp [blendCh, Nat.sub_self, muldiv255_zero, muldiv255_full s hs]

lemma blendCh_transparent (d s : Nat) (hd : d ≤ 255) : blendCh d s 0 = d := by
  simp [blendCh, muldiv255_zero, muldiv255_full d hd]

lemma blendPx_opaque (d s : Px) (ha : s.a = 255) (hok : rgbOk s) :
    rgbEq (blendPx d s) s := by
  unfold blendPx
  refine ⟨?_, ?_, ?_⟩ <;> simp only [ha] <;>
    [exact blendCh_opaque _ _ hok.1; exact blendCh_opaque _ _ hok.2.1;
     exact blendCh_opaque _ _ hok.2.2]

lemma blendPx_transparent (d s : Px) (ha : s.a = 0) (hok : rgbOk d) :
    rgbEq (blendPx d s) d := by
  unfold blendPx
  refine ⟨?_, ?_, ?_⟩ <;> simp only [ha] <;>
    [exact blendCh_transparent _ _ hok.1; exact blendCh_transparent _ _ hok.2.1;
     exact blendCh_transparent _ _ hok.2.2]

lemma convertRGB_pix_rgba (b : Bitmap) (hm : b.mode = .rgba) (x y : Nat) :
    (convertRGB b).pix x y = { b.pix x y with a := 255 } := by
  obtain ⟨w, h, m, px⟩ := b
  change m = PMode.rgba at hm
  subst hm
  rfl

lemma convertRGBA_pix_rgb (b : Bitmap) (hm : b.mode = .rgb) (x y : Nat) :
    (convertRGBA b).pix x y = { b.pix x y with a := 255 } := by
  obtain ⟨w, h, m, px⟩ := b
  change m = PMode.rgb at hm
  subst hm
  rfl

/-- `convert("RGBA")` never changes the colour channels, whatever the
source mode: it only adds an opaque alpha band to RGB images and is the
identity on RGBA images. -/
lemma convertRGBA_pix_rgbEq (b : Bitmap) (x y : Nat) :
    rgbEq ((convertRGBA b).pix x y) (b.pix x y) := by
  obtain ⟨w, h, m, px⟩ := b
  cases m <;> exact ⟨rfl, rfl, rfl⟩

lemma rgbOk_of_rgbEq (p q : Px) (he : rgbEq p q) (hq : rgbOk q) : rgbOk p :=
  ⟨by rw [he.1]; exact hq.1, by rw [he.2.1]; exact hq.2.1,
   by rw [he.2.2]; exact hq.2.2⟩

lemma rgbEq_trans (p q r : Px) (h1 : rgbEq p q) (h2 : rgbEq q r) : rgbEq p r :=
  ⟨h1.1.trans h2.1, h1.2.1.trans h2.2.1, h1.2.2.trans h2.2.2⟩

lemma convertRGBA_width (b : Bitmap) : (convertRGBA b).width = b.width := by
  obtain ⟨w, h, m, px⟩ := b; cases m <;> rfl

lemma convertRGBA_height (b : Bitmap) : (convertRGBA b).height = b.height := by
  obtain ⟨w, h, m, px⟩ := b; cases m <;> rfl

lemma convertRGB_width (b : Bitmap) : (convertRGB b).width = b.width := by
  obtain ⟨w, h, m, px⟩ := b; cases m <;> rfl

lemma convertRGB_height (b : Bitmap) : (convertRGB b).height = b.height := by
  obtain ⟨w, h, m, px⟩ := b; cases m <;> rfl

lemma convertRGB_mode (b : Bitmap) : (convertRGB b).mode = .rgb := by
  obtain ⟨w, h, m, px⟩ := b; cases m <;> rfl

lemma pasteAt_pix_in (dest src : Bitmap) (ox oy x y : Nat)
    (h1 : ox ≤ x) (h2 : x < ox + src.width)
    (h3 : oy ≤ y) (h4 : y < oy + src.height) :
    (pasteAt dest src ox oy).pix x y = src.pix (x - ox) (y - oy) := by
  simp [pasteAt, h1, h2, h3, h4]

lemma pasteMask_pix_in (dest src : Bitmap) (ox oy x y : Nat)
    (h1 : ox ≤ x) (h2 : x < ox + src.width)
    (h3 : oy ≤ y) (h4 : y < oy + src.height) :
    (pasteMask dest src ox oy).pix x y
      = blendPx (dest.pix x y) (src.pix (x - ox) (y - oy)) := by
  simp [pasteMask, h1, h2, h3, h4]

lemma frameComposite_width (g F : Bitmap) (off : Nat × Nat) :
    (frameComposite g F off).width = F.width :=
  (convertRGB_width _)

lemma frameComposite_height (g F : Bitmap) (off : Nat × Nat) :
    (frameComposite g F off).height = F.height :=
  (convertRGB_height _)

lemma frameComposite_mode (g F : Bitmap) (off : Nat × Nat) :
    (frameComposite g F off).mode = .rgb :=
  (convertRGB_mode _)

/-- Where the frame's alpha is 255, the composited artifact shows the
frame's own colour (the frame's opaque regions occlude the pasted photo). -/
lemma frameComposite_pix_opaque (g F : Bitmap) (ox oy x y : Nat)
    (hx : x < F.width) (hy : y < F.height)
    (ha : (F.pix x y).a = 255) (hok : rgbOk (F.pix x y)) :
    rgbEq ((frameComposite g F (ox, oy)).pix x y) (F.pix x y) := by
  unfold frameComposite
  rw [convertRGB_pix_rgba _ rfl x y,
    pasteMask_pix_in _ _ 0 0 x y (Nat.zero_le _) (by omega) (Nat.zero_le _) (by omega)]
  simp only [Nat.sub_zero]
  have h := blendPx_opaque ((pasteAt (newRGBA F.width F.height) g ox oy).pix x y)
    (F.pix x y) ha hok
  exact ⟨h.1, h.2.1, h.2.2⟩

/-- Where the frame is fully transparent over the pasted region, the
composited artifact shows the pasted generated image at the offset. -/
lemma frameComposite_pix_reveal (g F : Bitmap) (ox oy x y : Nat)
    (hx : x < F.width) (hy : y < F.height)
    (ha : (F.pix x y).a = 0)
    (hx1 : ox ≤ x) (hx2 : x < ox + g.width)
    (hy1 : oy ≤ y) (hy2 : y < oy + g.height)
    (hok : rgbOk (g.pix (x - ox) (y - oy))) :
    rgbEq ((frameComposite g F (ox, oy)).pix x y) (g.pix (x - ox) (y - oy)) := by
  unfold frameComposite
  rw [convertRGB_pix_rgba _ rfl x y,
    pasteMask_pix_in _ _ 0 0 x y (Nat.zero_le _) (by omega) (Nat.zero_le _) (by omega)]
  simp only [Nat.sub_zero]
  rw [pasteAt_pix_in _ _ ox oy x y hx1 hx2 hy1 hy2]
  have h := blendPx_transparent (g.pix (x - ox) (y - oy)) (F.pix x y) ha hok
  exact ⟨h.1, h.2.1, h.2.2⟩

/-! ## Lemmas about the subject preparer's scale computation -/

lemma prepScale_eq (w h : Nat) :
    prepScale w h = min (min ((1024 : ℚ) / (w : ℚ)) ((1024 : ℚ) / (h : ℚ))) 1 := by
  norm_num [prepScale, maxDim]

lemma prepScale_nonneg (w h : Nat) : 0 ≤ prepScale w h := by
  rw [prepScale_eq]
  have h1 : (0 : ℚ) ≤ 1024 / (w : ℚ) := by positivity
  have h2 : (0 : ℚ) ≤ 1024 / (h : ℚ) := by positivity
  exact le_min (le_min h1 h2) zero_le_one

lemma prepScale_not_lt (w h : Nat) (hw : 0 < w) (hh : 0 < h)
    (hmax : max w h ≤ 1024) : ¬ prepScale w h < 1 := by
  rw [prepScale_eq, not_lt]
  have hwq : (0 : ℚ) < w := by exact_mod_cast hw
  have hhq : (0 : ℚ) < h := by exact_mod_cast hh
  have hw1024 : (w : ℚ) ≤ 1024 := by
    exact_mod_cast le_trans (le_max_left w h) hmax
  have hh1024 : (h : ℚ) ≤ 1024 := by
    exact_mod_cast le_trans (le_max_right w h) hmax
  exact le_min (le_min ((one_le_div hwq).mpr hw1024)
    ((one_le_div hhq).mpr hh1024)) le_rfl

lemma prepScale_ge_one_bounds (w h : Nat) (hw : 0 < w) (hh : 0 < h)
    (hns : ¬ prepScale w h < 1) : w ≤ 1024 ∧ h ≤ 1024 := by
  rw [prepScale_eq, not_lt] at hns
  have hwq : (0 : ℚ) < w := by exact_mod_cast hw
  have hhq : (0 : ℚ) < h := by exact_mod_cast hh
  have hab := (le_min_iff.mp hns).1
  have ha := (le_min_iff.mp hab).1
  have hb := (le_min_iff.mp hab).2
  constructor
  · exact_mod_cast (one_le_div hwq).mp ha
  · exact_mod_cast (one_le_div hhq).mp hb

lemma prepScale_big (w h : Nat) (hw : 0 < w) (hh : 0 < h)
    (hmax : 1024 < max w h) :
    prepScale w h = (1024 : ℚ) / (max w h : ℚ) ∧ prepScale w h < 1 := by
  have hwq : (0 : ℚ) < w := by exact_mod_cast hw
  have hhq : (0 : ℚ) < h := by exact_mod_cast hh
  rcases le_total w h with hle | hle
  · have hmaxeq : max w h = h := max_eq_right hle
    have hhcast : (1024 : ℚ) < h := by
      have := hmaxeq ▸ hmax
      exact_mod_cast this
    have hcast : max (w : ℚ) (h : ℚ) = (h : ℚ) :=
      max_eq_right (by exact_mod_cast hle)
    have hmin : (1024 : ℚ) / (h : ℚ) ≤ (1024 : ℚ) / (w : ℚ) := by
      gcongr
    have hlt1 : (1024 : ℚ) / (h : ℚ) < 1 :=
      (div_lt_one (lt_trans (by norm_num) hhcast)).mpr hhcast
    refine ⟨?_, ?_⟩
    · rw [prepScale_eq, min_eq_right hmin, min_eq_left hlt1.le, hcast]
    · rw [prepScale_eq, min_eq_right hmin, min_eq_left hlt1.le]
      exact hlt1
  · have hmaxeq : max w h = w := max_eq_left hle
    have hwcast : (1024 : ℚ) < w := by
      have := hmaxeq ▸ hmax
      exact_mod_cast this
    have hcast : max (w : ℚ) (h : ℚ) = (w : ℚ) :=
      max_eq_left (by exact_mod_cast hle)
    have hmin : (1024 : ℚ) / (w : ℚ) ≤ (1024 : ℚ) / (h : ℚ) := by
      gcongr
    have hlt1 : (1024 : ℚ) / (w : ℚ) < 1 :=
      (div_lt_one (lt_trans (by norm_num) hwcast)).mpr hwcast
    refine ⟨?_, ?_⟩
    · rw [prepScale_eq, min_eq_left hmin, min_eq_left hlt1.le, hcast]
    · rw [prepScale_eq, min_eq_left hmin, min_eq_left hlt1.le]
      exact hlt1

lemma prepScale_le_div_w (w h : Nat) : prepScale w h ≤ (1024 : ℚ) / (w : ℚ) := by
  rw [prepScale_eq]
  exact le_trans (min_le_left _ _) (min_le_left _ _)

lemma prepScale_le_div_h (w h : Nat) : prepScale w h ≤ (1024 : ℚ) / (h : ℚ) := by
  rw [prepScale_eq]
  exact le_trans (min_le_left _ _) (min_le_right _ _)

lemma floor_toNat_le_1024 (r : ℚ) (hr : r ≤ 1024) : (⌊r⌋).toNat ≤ 1024 := by
  rw [Int.toNat_le]
  have h1 : ⌊r⌋ ≤ ⌊(1024 : ℚ)⌋ := Int.floor_le_floor hr
  have h2 : ⌊(1024 : ℚ)⌋ = (1024 : ℤ) := by norm_num
  omega

lemma floor_toNat_cancel (n : Nat) (hn : 0 < n) :
    (⌊(n : ℚ) * ((1024 : ℚ) / (n : ℚ))⌋).toNat = 1024 := by
  have hnq : (n : ℚ) ≠ 0 := by
    have : (0 : ℚ) < n := by exact_mod_cast hn
    exact ne_of_gt this
  have heq : (n : ℚ) * ((1024 : ℚ) / (n : ℚ)) = 1024 := by field_simp
  rw [heq]
  have h2 : ⌊(1024 : ℚ)⌋ = (1024 : ℤ) := by norm_num
  rw [h2]
  rfl

lemma prepareDims_small (w h : Nat) (hw : 0 < w) (hh : 0 < h)
    (hmax : max w h ≤ 1024) : prepareDims w h = (w, h) := by
  unfold prepareDims
  rw [if_neg (prepScale_not_lt w h hw hh hmax)]

lemma prepareDims_big (w h : Nat) (hw : 0 < w) (hh : 0 < h)
    (hmax : 1024 < max w h) :
    (prepareDims w h).1 = (⌊(w : ℚ) * ((1024 : ℚ) / (max w h : ℚ))⌋).toNat ∧
    (prepareDims w h).2 = (⌊(h : ℚ) * ((1024 : ℚ) / (max w h : ℚ))⌋).toNat := by
  rcases prepScale_big w h hw hh hmax with ⟨hs, hlt⟩
  unfold prepareDims
  rw [if_pos hlt, hs]
  exact ⟨rfl, rfl⟩

lemma prepDim_fst_le (w h : Nat) (hw : 0 < w) (hh : 0 < h) :
    (prepareDims w h).1 ≤ 1024 := by
  unfold prepareDims
  by_cases hc : prepScale w h < 1
  · rw [if_pos hc]
    have hwq : (0 : ℚ) < w := by exact_mod_cast hw
    have h2 : (w : ℚ) * prepScale w h ≤ (w : ℚ) * ((1024 : ℚ) / (w : ℚ)) :=
      mul_le_mul_of_nonneg_left (prepScale_le_div_w w h) hwq.le
    have h3 : (w : ℚ) * ((1024 : ℚ) / (w : ℚ)) = 1024 := by field_simp
    exact floor_toNat_le_1024 _ (by linarith)
  · rw [if_neg hc]
    exact (prepScale_ge_one_bounds w h hw hh hc).1

lemma prepDim_snd_le (w h : Nat) (hw : 0 < w) (hh : 0 < h) :
    (prepareDims w h).2 ≤ 1024 := by
  unfold prepareDims
  by_cases hc : prepScale w h < 1
  · rw [if_pos hc]
    have hhq : (0 : ℚ) < h := by exact_mod_cast hh
    have h2 : (h : ℚ) * prepScale w h ≤ (h : ℚ) * ((1024 : ℚ) / (h : ℚ)) :=
      mul_le_mul_of_nonneg_left (prepScale_le_div_h w h) hhq.le
    have h3 : (h : ℚ) * ((1024 : ℚ) / (h : ℚ)) = 1024 := by field_simp
    exact floor_toNat_le_1024 _ (by linarith)
  · rw [if_neg hc]
    exact (prepScale_ge_one_bounds w h hw hh hc).2

lemma prepareDims_aspect (w h : Nat) (hw : 0 < w) (hh : 0 < h)
    (hmax : 1024 < max w h) :
    |((prepareDims w h).1 : ℤ) * h - ((prepareDims w h).2 : ℤ) * w|
      < w + h := by
  rcases prepareDims_big w h hw hh hmax with ⟨h1, h2⟩
  rw [h1, h2]
  set s : ℚ := (1024 : ℚ) / (max w h : ℚ) with hs_def
  have hs0 : 0 ≤ s := by positivity
  have hwq : (0 : ℚ) < w := by exact_mod_cast hw
  have hhq : (0 : ℚ) < h := by exact_mod_cast hh
  have hA := Int.floor_le ((w : ℚ) * s)
  have hA1 := Int.lt_floor_add_one ((w : ℚ) * s)
  have hB := Int.floor_le ((h : ℚ) * s)
  have hB1 := Int.lt_floor_add_one ((h : ℚ) * s)
  have hAnn : 0 ≤ ⌊(w : ℚ) * s⌋ := Int.floor_nonneg.mpr (by positivity)
  have hBnn : 0 ≤ ⌊(h : ℚ) * s⌋ := Int.floor_nonneg.mpr (by positivity)
  have hAc : ((⌊(w : ℚ) * s⌋.toNat : ℕ) : ℚ) = (⌊(w : ℚ) * s⌋ : ℚ) := by
    exact_mod_cast congrArg (fun z : ℤ => (z : ℚ)) (Int.toNat_of_nonneg hAnn)
  have hBc : ((⌊(h : ℚ) * s⌋.toNat : ℕ) : ℚ) = (⌊(h : ℚ) * s⌋ : ℚ) := by
    exact_mod_cast congrArg (fun z : ℤ => (z : ℚ)) (Int.toNat_of_nonneg hBnn)
  rw [abs_lt]
  constructor
  · have hq : (-(w + h : ℤ) : ℚ)
        < ((⌊(w : ℚ) * s⌋.toNat * h - ⌊(h : ℚ) * s⌋.toNat * w : ℤ) : ℚ) := by
      push_cast
      rw [hAc, hBc]
      nlinarith [mul_lt_mul_of_pos_right hA1 hhq,
        mul_le_mul_of_nonneg_right hB hwq.le]
    exact_mod_cast hq
  · have hq : ((⌊(w : ℚ) * s⌋.toNat * h - ⌊(h : ℚ) * s⌋.toNat * w : ℤ) : ℚ)
        < ((w + h : ℤ) : ℚ) := by
      push_cast
      rw [hAc, hBc]
      nlinarith [mul_le_mul_of_nonneg_right hA hhq.le,
        mul_lt_mul_of_pos_right hB1 hwq]
    exact_mod_cast hq

lemma prepared_long_side (w h : Nat) (hw : 0 < w) (hh : 0 < h)
    (hmax : 1024 < max w h) :
    max (prepareDims w h).1 (prepareDims w h).2 = 1024 := by
  rcases prepareDims_big w h hw hh hmax with ⟨h1, h2⟩
  rw [h1, h2]
  rcases le_total w h with hle | hle
  · have hcast : max (w : ℚ) (h : ℚ) = (h : ℚ) :=
      max_eq_right (by exact_mod_cast hle)
    rw [hcast]
    have hle1 : (w : ℚ) * ((1024 : ℚ) / (h : ℚ)) ≤ 1024 := by
      have hb : (w : ℚ) * ((1024 : ℚ) / (h : ℚ))
          ≤ (h : ℚ) * ((1024 : ℚ) / (h : ℚ)) :=
        mul_le_mul_of_nonneg_right (by exact_mod_cast hle) (by positivity)
      have hhq : (0 : ℚ) < h := by exact_mod_cast hh
      have he : (h : ℚ) * ((1024 : ℚ) / (h : ℚ)) = 1024 := by field_simp
      linarith
    rw [floor_toNat_cancel h hh]
    exact max_eq_right (floor_toNat_le_1024 _ hle1)
  · have hcast : max (w : ℚ) (h : ℚ) = (w : ℚ) :=
      max_eq_left (by exact_mod_cast hle)
    rw [hcast]
    have hle1 : (h : ℚ) * ((1024 : ℚ) / (w : ℚ)) ≤ 1024 := by
      have hb : (h : ℚ) * ((1024 : ℚ) / (w : ℚ))
          ≤ (w : ℚ) * ((1024 : ℚ) / (w : ℚ)) :=
        mul_le_mul_of_nonneg_right (by exact_mod_cast hle) (by positivity)
      have hwq : (0 : ℚ) < w := by exact_mod_cast hw
      have he : (w : ℚ) * ((1024 : ℚ) / (w : ℚ)) = 1024 := by field_simp
      linarith
    rw [floor_toNat_cancel w hw]
    exact max_eq_left (floor_toNat_le_1024 _ hle1)

lemma prepareSubject_width (b : Bitmap) :
    (prepareSubject b).width = (prepareDims b.width b.height).1 := by
  unfold prepareSubject prepareDims
  by_cases hc : prepScale b.width b.height < 1
  · simp only [if_pos hc, resize]
  · simp only [if_neg hc]

lemma prepareSubject_height (b : Bitmap) :
    (prepareSubject b).height = (prepareDims b.width b.height).2 := by
  unfold prepareSubject prepareDims
  by_cases hc : prepScale b.width b.height < 1
  · simp only [if_pos hc, resize]
  · simp only [if_neg hc]

/-! ## Gemini failure messages -/

/-- Every failure of the generative stage carries one of the three
messages raised inside `gerar_imagem_gemini`, each naming Gemini. -/
def geminiFailureShape (e : String) : Prop :=
  (∃ s, e = "Erro ao chamar Gemini API: " ++ s) ∨
  (∃ s, e = "Erro ao abrir imagem retornada pela Gemini: " ++ s) ∨
  e = "Resposta da Gemini não contém nenhuma imagem gerada."

lemma findInParts_error_shape (l : List PartData) (e : String)
    (h : findInParts l = some (.error e)) :
    ∃ s, e = "Erro ao abrir imagem retornada pela Gemini: " ++ s := by
  induction l with
  | nil => simp [findInParts] at h
  | cons hd tl ih =>
    cases hd with
    | noInline => exact ih (by simpa [findInParts] using h)
    | emptyData => exact ih (by simpa [findInParts] using h)
    | withData d =>
      cases d with
      | error s =>
        simp only [findInParts, Option.some.injEq, Except.error.injEq] at h
        exact ⟨s, h.symm⟩
      | ok img => simp [findInParts] at h

lemma findInCands_error_shape (l : List Candidate) (e : String)
    (h : findInCands l = some (.error e)) :
    ∃ s, e = "Erro ao abrir imagem retornada pela Gemini: " ++ s := by
  induction l with
  | nil => simp [findInCands] at h
  | cons hd tl ih =>
    rcases hc : hd.content with _ | parts
    · exact ih (by simpa [findInCands, hc] using h)
    · rcases hp : findInParts parts with _ | r
      · exact ih (by simpa [findInCands, hc, hp] using h)
      · simp only [findInCands, hc, hp] at h
        cases h
        exact findInParts_error_shape parts e hp

lemma gerar_error_shape (c : GeminiCall) (e : String)
    (h : gerarImagemGemini c = .error e) : geminiFailureShape e := by
  cases c with
  | raises s =>
    simp only [gerarImagemGemini, Except.error.injEq] at h
    exact Or.inl ⟨s, h.symm⟩
  | returns cands =>
    rcases hf : findInCands cands with _ | r
    · simp only [gerarImagemGemini, hf, Except.error.injEq] at h
      exact Or.inr (Or.inr h.symm)
    · simp only [gerarImagemGemini, hf] at h
      subst h
      exact Or.inr (Or.inl (findInCands_error_shape cands e hf))

/-! ## Claim theorems -/

/-- C2: when the uploaded bytes fail to decode as an image, `/compose`
returns a 400 response carrying a `detail` message, and no file is written
and the external generative call is not made. -/
theorem c2_invalid_upload (env : ComposeEnv) (h : env.decoded = none) :
    (compose env).result = .err 400 "Arquivo enviado não é uma imagem válida." ∧
    (compose env).filesWritten = [] ∧
    (compose env).geminiCalled = false := by
  simp [compose, h]

theorem c2_invalid_upload_check :
    envBadUpload.decoded = none ∧
    ((compose envBadUpload).result =
        .err 400 "Arquivo enviado não é uma imagem válida." ∧
      (compose envBadUpload).filesWritten = [] ∧
      (compose envBadUpload).geminiCalled = false) :=
  ⟨rfl, c2_invalid_upload envBadUpload rfl⟩

/-- C3: when the scene asset file is absent, `/compose` returns a 500
response and the external generative call is never made in that run. -/
theorem c3_scene_missing (env : ComposeEnv) (p : Bitmap)
    (h1 : env.decoded = some p) (h2 : env.sceneExists = false) :
    (compose env).result = .err 500 ("Cenário não encontrado em " ++ sceneFilePath) ∧
    (compose env).geminiCalled = false ∧
    (compose env).filesWritten = [] := by
  simp [compose, h1, h2]

theorem c3_scene_missing_check :
    envNoScene.decoded = some bmpP ∧ envNoScene.sceneExists = false ∧
    ((compose envNoScene).result =
        .err 500 ("Cenário não encontrado em " ++ sceneFilePath) ∧
      (compose envNoScene).geminiCalled = false ∧
      (compose envNoScene).filesWritten = []) :=
  ⟨rfl, rfl, c3_scene_missing envNoScene bmpP rfl rfl⟩

/-- C7: when the generative stage fails (the call raises, the response has
no usable image payload, or the payload fails to decode), `/compose`
returns a 500 whose detail message is one of the Gemini-stage messages,
and no artifact file is written.  (That the response is never
half-complete is structural: `ComposeResult` is either a full
`ok final_url qr_url` or an `err status detail`.) -/
theorem c7_generative_failure (env : ComposeEnv) (p bg : Bitmap) (e : String)
    (h1 : env.decoded = some p) (h2 : env.sceneExists = true)
    (h3 : env.sceneDecoded = .ok bg)
    (h4 : gerarImagemGemini env.geminiCall = .error e) :
    (compose env).result = .err 500 e ∧
    geminiFailureShape e ∧
    (compose env).filesWritten = [] ∧
    (compose env).artifact = none := by
  refine ⟨?_, gerar_error_shape _ _ h4, ?_, ?_⟩ <;> simp [compose, h1, h2, h3, h4]

theorem c7_generative_failure_check :
    envGeminiRaises.decoded = some bmpP ∧
    envGeminiRaises.sceneExists = true ∧
    envGeminiRaises.sceneDecoded = .ok bmpScene ∧
    gerarImagemGemini envGeminiRaises.geminiCall =
      .error ("Erro ao chamar Gemini API: " ++ "quota") ∧
    ((compose envGeminiRaises).result =
        .err 500 ("Erro ao chamar Gemini API: " ++ "quota") ∧
      geminiFailureShape ("Erro ao chamar Gemini API: " ++ "quota") ∧
      (compose envGeminiRaises).filesWritten = [] ∧
      (compose envGeminiRaises).artifact = none) :=
  ⟨rfl, rfl, rfl, rfl,
   c7_generative_failure envGeminiRaises bmpP bmpScene _ rfl rfl rfl rfl⟩

/-- C9: if persisting the QR code fails after the artifact JPEG has been
saved, `/compose` returns a 500 error body, yet the artifact file written
under the fresh identifier is in the set of files written during the
request. -/
theorem c9_qr_save_failure (env : ComposeEnv) (p bg g : Bitmap) (e : String)
    (h1 : env.decoded = some p) (h2 : env.sceneExists = true)
    (h3 : env.sceneDecoded = .ok bg)
    (h4 : gerarImagemGemini env.geminiCall = .ok g)
    (h5 : env.saveJpegErr = none) (h6 : env.qrSaveErr = some e) :
    (compose env).result = .err 500 ("Erro ao salvar QR code: " ++ e) ∧
    ("static/fotos/" ++ (env.imgId ++ ".jpg")) ∈ (compose env).filesWritten := by
  refine ⟨?_, ?_⟩ <;> simp [compose, h1, h2, h3, h4, h5, h6]

theorem c9_qr_save_failure_check :
    envQrFails.decoded = some bmpP ∧
    envQrFails.sceneExists = true ∧
    envQrFails.sceneDecoded = .ok bmpScene ∧
    gerarImagemGemini envQrFails.geminiCall = .ok bmpG ∧
    envQrFails.saveJpegErr = none ∧
    envQrFails.qrSaveErr = some "disk full" ∧
    ((compose envQrFails).result =
        .err 500 ("Erro ao salvar QR code: " ++ "disk full") ∧
      ("static/fotos/" ++ (envQrFails.imgId ++ ".jpg")) ∈
        (compose envQrFails).filesWritten) :=
  ⟨rfl, rfl, rfl, rfl, rfl, rfl,
   c9_qr_save_failure envQrFails bmpP bmpScene bmpG _ rfl rfl rfl rfl rfl rfl⟩

/-- C8: every successful `/compose` call returns both `final_url` and
`qr_url`, both built under the `/static` prefix of the request's own
origin, with filenames derived from the same fresh identifier
(`<id>.jpg` and `<id>.png`). -/
theorem c8_success_urls (env : ComposeEnv) (f q : String)
    (h : (compose env).result = .ok f q) :
    f = rstripSlash env.baseUrl ++ "/static/fotos/" ++ (env.imgId ++ ".jpg") ∧
    q = rstripSlash env.baseUrl ++ "/static/qr/" ++ (env.imgId ++ ".png") := by
  cases hd : env.decoded with
  | none => simp [compose, hd] at h
  | some p =>
    cases hs : env.sceneExists with
    | false => simp [compose, hd, hs] at h
    | true =>
      cases hsd : env.sceneDecoded with
      | error e => simp [compose, hd, hs, hsd] at h
      | ok bg =>
        cases hg : gerarImagemGemini env.geminiCall with
        | error e => simp [compose, hd, hs, hsd, hg] at h
        | ok g =>
          cases hj : env.saveJpegErr with
          | some e => simp [compose, hd, hs, hsd, hg, hj] at h
          | none =>
            cases hq : env.qrSaveErr with
            | some e => simp [compose, hd, hs, hsd, hg, hj, hq] at h
            | none =>
              simp [compose, hd, hs, hsd, hg, hj, hq,
                ComposeResult.ok.injEq] at h
              exact ⟨h.1.symm, h.2.symm⟩

theorem c8_success_urls_check :
    (compose envOkNoFrame).result =
      .ok "http://host/static/fotos/id-1.jpg" "http://host/static/qr/id-1.png" ∧
    ("http://host/static/fotos/id-1.jpg" =
        rstripSlash envOkNoFrame.baseUrl ++ "/static/fotos/" ++
          (envOkNoFrame.imgId ++ ".jpg") ∧
      "http://host/static/qr/id-1.png" =
        rstripSlash envOkNoFrame.baseUrl ++ "/static/qr/" ++
          (envOkNoFrame.imgId ++ ".png")) :=
  ⟨by decide, c8_success_urls envOkNoFrame _ _ (by decide)⟩

/-- C5: when no frame asset is present, the persisted artifact is exactly
the generative output put through `convert("RGBA")` then `convert("RGB")`,
and for an RGB generative output that chain is a pixel identity: the
artifact has the same dimensions, is in the opaque 3-channel mode, and
agrees with the generative output on every colour channel of every pixel
(before lossy JPEG encoding). -/
theorem c5_no_frame_pixel_identity (env : ComposeEnv) (p bg g : Bitmap)
    (h1 : env.decoded = some p) (h2 : env.sceneExists = true)
    (h3 : env.sceneDecoded = .ok bg)
    (h4 : gerarImagemGemini env.geminiCall = .ok g)
    (h5 : env.frameExists = false) (h6 : env.saveJpegErr = none)
    (hmode : g.mode = .rgb) :
    (compose env).artifact = some (convertRGB (convertRGBA g)) ∧
    (convertRGB (convertRGBA g)).width = g.width ∧
    (convertRGB (convertRGBA g)).height = g.height ∧
    (convertRGB (convertRGBA g)).mode = .rgb ∧
    ∀ x y, rgbEq ((convertRGB (convertRGBA g)).pix x y) (g.pix x y) := by
  obtain ⟨w, ht, m, px⟩ := g
  change m = PMode.rgb at hmode
  subst hmode
  refine ⟨?_, rfl, rfl, rfl, fun x y => ⟨rfl, rfl, rfl⟩⟩
  cases hq : env.qrSaveErr <;> simp [compose, h1, h2, h3, h4, h5, h6, hq]

theorem c5_no_frame_pixel_identity_check :
    envOkNoFrame.decoded = some bmpP ∧
    envOkNoFrame.sceneExists = true ∧
    envOkNoFrame.sceneDecoded = .ok bmpScene ∧
    gerarImagemGemini envOkNoFrame.geminiCall = .ok bmpG ∧
    envOkNoFrame.frameExists = false ∧
    envOkNoFrame.saveJpegErr = none ∧
    bmpG.mode = .rgb ∧
    ((compose envOkNoFrame).artifact = some (convertRGB (convertRGBA bmpG)) ∧
      (convertRGB (convertRGBA bmpG)).width = bmpG.width ∧
      (convertRGB (convertRGBA bmpG)).height = bmpG.height ∧
      (convertRGB (convertRGBA bmpG)).mode = .rgb ∧
      ∀ x y, rgbEq ((convertRGB (convertRGBA bmpG)).pix x y) (bmpG.pix x y)) :=
  ⟨rfl, rfl, rfl, rfl, rfl, rfl, rfl,
   c5_no_frame_pixel_identity envOkNoFrame bmpP bmpScene bmpG
     rfl rfl rfl rfl rfl rfl rfl⟩

/-- C4: when a frame asset is present, the artifact is built as a fully
transparent canvas of the frame's dimensions, with the generated bitmap
pasted at the fixed offset (25, 270) without rescaling, the frame pasted
on top at (0, 0) with its own alpha as the compositing mask, flattened to
the opaque 3-channel mode; in particular the artifact's dimensions equal
the frame's dimensions, opaque frame pixels show the frame's colour and
fully transparent frame pixels over the pasted region show the generated
image. -/
theorem c4_frame_compositing (env : ComposeEnv) (p bg g : Bitmap)
    (h1 : env.decoded = some p) (h2 : env.sceneExists = true)
    (h3 : env.sceneDecoded = .ok bg)
    (h4 : gerarImagemGemini env.geminiCall = .ok g)
    (h5 : env.frameExists = true) (h6 : env.saveJpegErr = none) :
    (compose env).artifact
      = some (frameComposite (convertRGBA g) env.frame (25, 270)) ∧
    (frameComposite (convertRGBA g) env.frame (25, 270)).width
      = env.frame.width ∧
    (frameComposite (convertRGBA g) env.frame (25, 270)).height
      = env.frame.height ∧
    (frameComposite (convertRGBA g) env.frame (25, 270)).mode = .rgb ∧
    (∀ x y, x < env.frame.width → y < env.frame.height →
      (env.frame.pix x y).a = 255 → rgbOk (env.frame.pix x y) →
      rgbEq ((frameComposite (convertRGBA g) env.frame (25, 270)).pix x y)
        (env.frame.pix x y)) ∧
    (∀ x y, x < env.frame.width → y < env.frame.height →
      (env.frame.pix x y).a = 0 →
      25 ≤ x → x < 25 + g.width → 270 ≤ y → y < 270 + g.height →
      rgbOk (g.pix (x - 25) (y - 270)) →
      rgbEq ((frameComposite (convertRGBA g) env.frame (25, 270)).pix x y)
        (g.pix (x - 25) (y - 270))) := by
  refine ⟨?_, frameComposite_width _ _ _, frameComposite_height _ _ _,
    frameComposite_mode _ _ _, ?_, ?_⟩
  · cases hq : env.qrSaveErr <;> simp [compose, h1, h2, h3, h4, h5, h6, hq]
  · intro x y hx hy ha hok
    exact frameComposite_pix_opaque (convertRGBA g) env.frame 25 270 x y hx hy ha hok
  · intro x y hx hy ha hx1 hx2 hy1 hy2 hok
    have hw : (convertRGBA g).width = g.width := convertRGBA_width g
    have hh : (convertRGBA g).height = g.height := convertRGBA_height g
    have he : rgbEq ((convertRGBA g).pix (x - 25) (y - 270))
        (g.pix (x - 25) (y - 270)) := convertRGBA_pix_rgbEq g _ _
    have hok' : rgbOk ((convertRGBA g).pix (x - 25) (y - 270)) :=
      rgbOk_of_rgbEq _ _ he hok
    have h := frameComposite_pix_reveal (convertRGBA g) env.frame 25 270 x y
      hx hy ha hx1 (by omega) hy1 (by omega) hok'
    exact rgbEq_trans _ _ _ h he

theorem c4_frame_compositing_check :
    envOkFrame.decoded = some bmpP ∧
    envOkFrame.sceneExists = true ∧
    envOkFrame.sceneDecoded = .ok bmpScene ∧
    gerarImagemGemini envOkFrame.geminiCall = .ok bmpG ∧
    envOkFrame.frameExists = true ∧
    envOkFrame.saveJpegErr = none ∧
    ((compose envOkFrame).artifact
        = some (frameComposite (convertRGBA bmpG) envOkFrame.frame (25, 270)) ∧
      (frameComposite (convertRGBA bmpG) envOkFrame.frame (25, 270)).width
        = envOkFrame.frame.width ∧
      (frameComposite (convertRGBA bmpG) envOkFrame.frame (25, 270)).height
        = envOkFrame.frame.height ∧
      (frameComposite (convertRGBA bmpG) envOkFrame.frame (25, 270)).mode = .rgb ∧
      (∀ x y, x < envOkFrame.frame.width → y < envOkFrame.frame.height →
        (envOkFrame.frame.pix x y).a = 255 → rgbOk (envOkFrame.frame.pix x y) →
        rgbEq ((frameComposite (convertRGBA bmpG) envOkFrame.frame (25, 270)).pix x y)
          (envOkFrame.frame.pix x y)) ∧
      (∀ x y, x < envOkFrame.frame.width → y < envOkFrame.frame.height →
        (envOkFrame.frame.pix x y).a = 0 →
        25 ≤ x → x < 25 + bmpG.width → 270 ≤ y → y < 270 + bmpG.height →
        rgbOk (bmpG.pix (x - 25) (y - 270)) →
        rgbEq ((frameComposite (convertRGBA bmpG) envOkFrame.frame (25, 270)).pix x y)
          (bmpG.pix (x - 25) (y - 270)))) :=
  ⟨rfl, rfl, rfl, rfl, rfl, rfl,
   c4_frame_compositing envOkFrame bmpP bmpScene bmpG
     rfl rfl rfl rfl rfl rfl⟩

/-- C6: frame compositing is deterministic on its inputs — running the
compositing step on equal (generated bitmap, frame, offset) triples yields
artifacts of equal dimensions that are pixel-identical everywhere. -/
theorem c6_frame_compositing_deterministic (g1 g2 f1 f2 : Bitmap)
    (o1 o2 : Nat × Nat) (hg : g1 = g2) (hf : f1 = f2) (ho : o1 = o2) :
    (frameComposite g1 f1 o1).width = (frameComposite g2 f2 o2).width ∧
    (frameComposite g1 f1 o1).height = (frameComposite g2 f2 o2).height ∧
    ∀ x y, (frameComposite g1 f1 o1).pix x y = (frameComposite g2 f2 o2).pix x y := by
  subst hg; subst hf; subst ho
  exact ⟨rfl, rfl, fun _ _ => rfl⟩

theorem c6_frame_compositing_deterministic_check :
    bmpG = bmpG ∧ bmpFrame = bmpFrame ∧ ((25, 270) : Nat × Nat) = (25, 270) ∧
    ((frameComposite bmpG bmpFrame (25, 270)).width
        = (frameComposite bmpG bmpFrame (25, 270)).width ∧
      (frameComposite bmpG bmpFrame (25, 270)).height
        = (frameComposite bmpG bmpFrame (25, 270)).height ∧
      ∀ x y, (frameComposite bmpG bmpFrame (25, 270)).pix x y
        = (frameComposite bmpG bmpFrame (25, 270)).pix x y) :=
  ⟨rfl, rfl, rfl,
   c6_frame_compositing_deterministic bmpG bmpG bmpFrame bmpFrame
     (25, 270) (25, 270) rfl rfl rfl⟩

/-- A decoded subject larger than the bound (Scenario A's 2000×1000). -/
def bmpBig : Bitmap := ⟨2000, 1000, .rgb, fun _ _ => ⟨0, 0, 0, 255⟩⟩

/-- C1 (amended): the subject preparer never upscales — a decoded subject
whose longer side is at most 1024 keeps its dimensions exactly; for a
subject whose longer side exceeds 1024, under the exact-rational
idealization of the float arithmetic of lines 182–184 the prepared longer
side equals exactly 1024, with the aspect preserved within rounding: the
cross products of the new and old dimensions differ by less than
width + height.  The exactness of the 1024 is a property of the
idealization only: the floating-point program can fall one pixel short,
see `c1_float_shortfall`. -/
theorem c1_subject_preparer_bound (b : Bitmap)
    (hw : 0 < b.width) (hh : 0 < b.height) :
    (max b.width b.height ≤ 1024 →
      (prepareSubject b).width = b.width ∧
      (prepareSubject b).height = b.height) ∧
    (1024 < max b.width b.height →
      max (prepareSubject b).width (prepareSubject b).height = 1024 ∧
      |((prepareSubject b).width : ℤ) * b.height
          - ((prepareSubject b).height : ℤ) * b.width|
        < b.width + b.height) := by
  constructor
  · intro hmax
    have hd := prepareDims_small b.width b.height hw hh hmax
    rw [prepareSubject_width, prepareSubject_height, hd]
    exact ⟨rfl, rfl⟩
  · intro hmax
    refine ⟨?_, ?_⟩
    · rw [prepareSubject_width, prepareSubject_height]
      exact prepared_long_side b.width b.height hw hh hmax
    · rw [prepareSubject_width, prepareSubject_height]
      exact prepareDims_aspect b.width b.height hw hh hmax

theorem c1_subject_preparer_bound_check :
    0 < bmpBig.width ∧ 0 < bmpBig.height ∧
    ((max bmpBig.width bmpBig.height ≤ 1024 →
        (prepareSubject bmpBig).width = bmpBig.width ∧
        (prepareSubject bmpBig).height = bmpBig.height) ∧
      (1024 < max bmpBig.width bmpBig.height →
        max (prepareSubject bmpBig).width (prepareSubject bmpBig).height = 1024 ∧
        |((prepareSubject bmpBig).width : ℤ) * bmpBig.height
            - ((prepareSubject bmpBig).height : ℤ) * bmpBig.width|
          < bmpBig.width + bmpBig.height)) :=
  ⟨by decide, by decide,
   c1_subject_preparer_bound bmpBig (by decide) (by decide)⟩

/-- C1 counterexample: under faithful IEEE-754 binary64 semantics of
lines 180–185 (`prepareDimsF`), the feasible 50176×100 subject has longer
side 50176 > 1024, yet the prepared longer side is 1023, not 1024:
`1024/50176` rounds to `5882252574524729 · 2⁻⁵⁸`, whose float product
with 50176 rounds to `1024 − 2⁻⁴³`, and `int(...)` truncates to 1023.
The claim's "longer side equals exactly 1024" conjunct is therefore false
of the floating-point program. -/
theorem c1_float_shortfall :
    1024 < max 50176 100 ∧
    max (prepareDimsF 50176 100).1 (prepareDimsF 50176 100).2 = 1023 ∧
    max (prepareDimsF 50176 100).1 (prepareDimsF 50176 100).2 ≠ 1024 := by
  refine ⟨by decide, by decide, by decide⟩

/-- C10: the downscale truncates `int(original × scale)`, so both prepared
dimensions are at most 1024, but positive output dimensions are not
guaranteed — whenever the longer side exceeds 1024 times the shorter side,
the shorter output dimension truncates to 0. -/
theorem c10_truncated_dims (w h : Nat) (hw : 0 < w) (hh : 0 < h) :
    (prepareDims w h).1 ≤ 1024 ∧ (prepareDims w h).2 ≤ 1024 ∧
    (1024 * min w h < max w h →
      min (prepareDims w h).1 (prepareDims w h).2 = 0) := by
  refine ⟨prepDim_fst_le w h hw hh, prepDim_snd_le w h hw hh, ?_⟩
  intro hasp
  have hmax : 1024 < max w h := by
    have h1 : 1 ≤ min w h := by omega
    calc (1024 : Nat) = 1024 * 1 := by omega
      _ ≤ 1024 * min w h := Nat.mul_le_mul_left _ h1
      _ < max w h := hasp
  rcases prepScale_big w h hw hh hmax with ⟨hs, hlt⟩
  unfold prepareDims
  rw [if_pos hlt, hs]
  rcases le_total w h with hle | hle
  · have hcast : max (w : ℚ) (h : ℚ) = (h : ℚ) :=
      max_eq_right (by exact_mod_cast hle)
    rw [hcast]
    have hhq : (0 : ℚ) < h := by exact_mod_cast hh
    have hwlt : w * 1024 < h := by omega
    have hlt1 : (w : ℚ) * ((1024 : ℚ) / (h : ℚ)) < 1 := by
      have heq : (w : ℚ) * ((1024 : ℚ) / (h : ℚ))
          = ((w * 1024 : Nat) : ℚ) / (h : ℚ) := by
        push_cast
        ring
      rw [heq, div_lt_one hhq]
      exact_mod_cast hwlt
    have hge0 : (0 : ℚ) ≤ (w : ℚ) * ((1024 : ℚ) / (h : ℚ)) := by positivity
    have hfl : ⌊(w : ℚ) * ((1024 : ℚ) / (h : ℚ))⌋ = 0 := by
      rw [Int.floor_eq_zero_iff, Set.mem_Ico]
      exact ⟨hge0, hlt1⟩
    simp [hfl]
  · have hcast : max (w : ℚ) (h : ℚ) = (w : ℚ) :=
      max_eq_left (by exact_mod_cast hle)
    rw [hcast]
    have hwq : (0 : ℚ) < w := by exact_mod_cast hw
    have hhlt : h * 1024 < w := by omega
    have hlt1 : (h : ℚ) * ((1024 : ℚ) / (w : ℚ)) < 1 := by
      have heq : (h : ℚ) * ((1024 : ℚ) / (w : ℚ))
          = ((h * 1024 : Nat) : ℚ) / (w : ℚ) := by
        push_cast
        ring
      rw [heq, div_lt_one hwq]
      exact_mod_cast hhlt
    have hge0 : (0 : ℚ) ≤ (h : ℚ) * ((1024 : ℚ) / (w : ℚ)) := by positivity
    have hfl : ⌊(h : ℚ) * ((1024 : ℚ) / (w : ℚ))⌋ = 0 := by
      rw [Int.floor_eq_zero_iff, Set.mem_Ico]
      exact ⟨hge0, hlt1⟩
    simp [hfl]

theorem c10_truncated_dims_check :
    0 < 1 ∧ 0 < 5000 ∧
    ((prepareDims 1 5000).1 ≤ 1024 ∧ (prepareDims 1 5000).2 ≤ 1024 ∧
      (1024 * min 1 5000 < max 1 5000 →
        min (prepareDims 1 5000).1 (prepareDims 1 5000).2 = 0)) :=
  ⟨by decide, by decide, c10_truncated_dims 1 5000 (by decide) (by decide)⟩
